import Mathlib

/-
Shallow embedding of the Decentralized-SDG backend, checked against its
specification.  Numbers that the JavaScript source manipulates as IEEE
doubles are modelled as exact rationals (all quantities involved here are
small integers and divisions of small integers); machine integers are
modelled as Nat.  Fallible code is modelled with Except, stateful ledger
interaction with explicit environment records and call traces.
-/

namespace SDG

/-! ## Constants (src/Backend/src/utils/constants.js) -/

def DATA_FORMAT_NAMES : List String := ["AUDIO", "CSV", "IMAGE", "TEXT", "VIDEO", "MIXED"]

def REQUEST_STATUS_NAMES : List String := ["OPEN", "CLOSED"]

def SUBMISSION_STATUS_NAMES : List String :=
  ["PENDING", "APPROVED", "REJECTED", "PAID", "REFUNDED"]

/-! ## Validators (src/Backend/src/utils/validators.js) -/

/-- Source: isValidFormatsMask.  True when the mask is between 1 and 63. -/
def isValidFormatsMask (mask : Nat) : Bool :=
  0 < mask && mask ≤ 63

/-- Source: decodeFormatsMask.  For each index of DATA_FORMAT_NAMES, if the
corresponding bit of the mask is set the name is pushed onto the result. -/
def decodeFormatsMask (mask : Nat) : List String :=
  (List.range DATA_FORMAT_NAMES.length).filterMap fun i =>
    if mask.testBit i then DATA_FORMAT_NAMES.get? i else none

/-- Source: parseFormatsMask, numeric branch: a number is returned unchanged
when isValidFormatsMask accepts it, and null (none) otherwise. -/
def parseFormatsMaskNum (mask : Nat) : Option Nat :=
  if isValidFormatsMask mask then some mask else none

/-- Source: parseFormatsMask, array branch: fold the recognised format names
(after toUpperCase) into a mask with bitwise or of 1 shifted by the index in
DATA_FORMAT_NAMES; unrecognised names are skipped; the result is null (none)
when the accumulated mask is 0.  The source function dispatches on the
runtime type of its argument; the numeric branch is parseFormatsMaskNum. -/
def parseFormatsMask (formats : List String) : Option Nat :=
  let mask := formats.foldl
    (fun m f =>
      match DATA_FORMAT_NAMES.findIdx? (fun n => n = f.toUpper) with
      | some i => m ||| (1 <<< i)
      | none => m) 0
  if 0 < mask then some mask else none

/-! ## Quality engine data (src/Backend/src/services/s3Service.js, QualityService) -/

/-- Submission record as consumed by the quality service. -/
structure Submission where
  submissionId : Nat
  requestId : Nat
  format : String
  fileSize : Nat
  sampleCount : Nat
  fileExtensions : String
  datasetReference : String
deriving DecidableEq

/-- JavaScript Math.round for a nonnegative rational: floor of x + 1/2. -/
def jsRound (q : ℚ) : ℤ :=
  Int.floor (q + 1 / 2)

/-- JavaScript String.prototype.split with separator comma: accumulates the
characters between commas; on the empty string it yields one empty token. -/
def splitCommaAux : List Char → List Char → List String
  | [], acc => [String.mk acc.reverse]
  | c :: cs, acc =>
    if c = ',' then String.mk acc.reverse :: splitCommaAux cs []
    else splitCommaAux cs (c :: acc)

def jsSplitComma (s : String) : List String :=
  splitCommaAux s.toList []

/-- Source: checkCompleteness.  Starts at 100, subtracts 20 when fileSize is
missing or zero, 20 when sampleCount is missing or zero, 10 when the
extensions string is blank, 10 when the dataset reference is blank, floored
at 0.  A zero number and an empty string are the falsy cases here. -/
def checkCompleteness (s : Submission) : ℚ :=
  let score : ℤ :=
    100 - (if s.fileSize = 0 then 20 else 0)
        - (if s.sampleCount = 0 then 20 else 0)
        - (if s.fileExtensions.trim = "" then 10 else 0)
        - (if s.datasetReference.trim = "" then 10 else 0)
  (max 0 score : ℤ)

/-- Source: the expectedExtensions table inside checkFormatCompliance. -/
def expectedExtensions (format : String) : List String :=
  match format with
  | "CSV" => ["csv", "tsv"]
  | "IMAGE" => ["jpg", "jpeg", "png", "gif", "bmp", "webp"]
  | "AUDIO" => ["mp3", "wav", "flac", "aac", "ogg"]
  | "TEXT" => ["txt", "json", "xml", "md"]
  | "VIDEO" => ["mp4", "avi", "mov", "mkv", "webm"]
  | _ => []

/-- Source: checkFormatCompliance.  Lower-cases the declared extensions,
splits on commas, trims each token, and scores the fraction of tokens that
belong to the expected set, times 100; formats with no expected set score
100 unconditionally. -/
def checkFormatCompliance (s : Submission) : ℚ :=
  let extensions := (jsSplitComma s.fileExtensions.toLower).map String.trim
  let expected := expectedExtensions s.format
  if expected.length = 0 then 100
  else ((extensions.filter (fun e => expected.contains e)).length : ℚ)
       / (extensions.length : ℚ) * 100

/-- Source: the per-format check routines checkCSVQuality, checkImageQuality,
checkAudioQuality, checkTextQuality, checkVideoQuality, and the default
switch branch that sets validity to 80. -/
def formatMetrics (format : String) : List (String × ℚ) :=
  match format with
  | "CSV" => [("accuracy", 85), ("validity", 90), ("consistency", 80), ("distributionScore", 75)]
  | "IMAGE" => [("validity", 90), ("diversityScore", 80), ("syntheticQuality", 85)]
  | "AUDIO" => [("validity", 88), ("syntheticQuality", 82)]
  | "TEXT" => [("validity", 85), ("diversityScore", 78), ("biasScore", 75), ("syntheticQuality", 80)]
  | "VIDEO" => [("validity", 87), ("syntheticQuality", 83)]
  | _ => [("validity", 80)]

/-- Key order of the metrics object literal in runQualityChecks. -/
def metricsTemplate : List String :=
  ["accuracy", "completeness", "consistency", "validity", "uniqueness",
   "formatCompliance", "distributionScore", "diversityScore",
   "syntheticQuality", "privacyPreservation", "biasScore"]

/-- Source: runQualityChecks.  All keys start at null; completeness and
formatCompliance are always assigned; the format dispatch merges further
metrics (later assignments win, hence the reverse lookup); keys still null
are deleted, so the surviving entries keep the template order. -/
def runQualityChecks (s : Submission) : List (String × ℚ) :=
  let assigned : List (String × ℚ) :=
    [("completeness", checkCompleteness s), ("formatCompliance", checkFormatCompliance s)]
      ++ formatMetrics s.format
  metricsTemplate.filterMap fun k =>
    (assigned.reverse.lookup k).map fun v => (k, v)

/-- Source: calculateOverallScore.  Mean of the numeric metric values,
rounded with Math.round; 0 when no numeric value is present.  In this
embedding every stored metric value is numeric, so the typeof filter of the
source keeps every value. -/
def calculateOverallScore (metrics : List (String × ℚ)) : ℤ :=
  let values := metrics.map Prod.snd
  if values.length = 0 then 0
  else jsRound (values.sum / (values.length : ℚ))

/-- One entry of the issues array built by identifyIssues. -/
structure Issue where
  severity : String
  category : String
  description : String
  location : String
deriving DecidableEq

/-- Source: the forEach body of identifyIssues.  A score below 60 yields a
high issue, otherwise below 75 a medium issue, otherwise nothing.  The
textual description abstracts the numeric interpolation of the source. -/
def metricIssues (metric : String) (score : ℚ) : List Issue :=
  if score < 60 then
    [{ severity := "high", category := metric,
       description := metric ++ " score is below acceptable threshold",
       location := "dataset" }]
  else if score < 75 then
    [{ severity := "medium", category := metric,
       description := metric ++ " score could be improved",
       location := "dataset" }]
  else []

/-- The issue pushed by identifyIssues when fileSize exceeds 1 GiB. -/
def fileSizeIssue : Issue :=
  { severity := "medium", category := "fileSize",
    description := "File size is very large, may affect performance",
    location := "metadata" }

/-- Source: identifyIssues.  Per-metric issues in metric order, then the
fileSize issue when the size is strictly greater than 1024 * 1024 * 1024. -/
def identifyIssues (metrics : List (String × ℚ)) (s : Submission) : List Issue :=
  (metrics.flatMap fun kv => metricIssues kv.1 kv.2)
    ++ (if 1024 * 1024 * 1024 < s.fileSize then [fileSizeIssue] else [])

/-- JavaScript `a || b` for an optional numeric option: absent and 0 are
falsy and fall back to the default. -/
def jsOrDefault (o : Option ℚ) (d : ℚ) : ℚ :=
  match o with
  | none => d
  | some t => if t = 0 then d else t

/-- Observable outcome of QualityService.verifySubmission, restricted to the
pure decision pipeline (the mirror-store write is modelled separately and
the report upload is out of scope). -/
structure VerificationOutcome where
  metrics : List (String × ℚ)
  overallScore : ℤ
  approved : Bool
  issues : List Issue
deriving DecidableEq

/-- Source: QualityService.verifySubmission, decision part: run the checks,
aggregate the score, compare against `options.threshold || 70`, and derive
the issues. -/
def verifySubmissionQuality (s : Submission) (thresholdOpt : Option ℚ) : VerificationOutcome :=
  let metrics := runQualityChecks s
  let overallScore := calculateOverallScore metrics
  let threshold := jsOrDefault thresholdOpt 70
  { metrics := metrics
    overallScore := overallScore
    approved := decide ((overallScore : ℚ) ≥ threshold)
    issues := identifyIssues metrics s }

/-! ## Verification store (src/unnamed/part_001, qualityVerificationSchema) -/

/-- Verification record, restricted to the fields the uniqueness claim
needs. -/
structure VerificationRecord where
  submissionId : Nat
  requestId : Nat
  approved : Bool
  overallScore : ℤ
deriving DecidableEq

/-- Index declarations of qualityVerificationSchema: key field paired with
its unique flag. -/
def qualityVerificationIndexes : List (String × Bool) :=
  [("submissionId", true), ("requestId", false), ("verifiedBy", false),
   ("approved", false), ("overallScore", false)]

/-- Modelled from the spec: the mirror store engine that enforces the
declared indexes is outside src; per the spec interface (unique-constrained
create) and the schema declaration index submissionId unique, a create
fails with a duplicate-key error when a record with the same submissionId
already exists, and otherwise appends the record. -/
def createVerification (store : List VerificationRecord) (r : VerificationRecord) :
    Except String (List VerificationRecord) :=
  if store.any (fun x => x.submissionId = r.submissionId) then
    Except.error "E11000 duplicate key error: submissionId"
  else
    Except.ok (store ++ [r])

/-! ## Ledger model (src/Backend/src/config/blockchain.js and
src/Backend/src/services/blockchainService.js) -/

/-- Shape of the tuple returned by the contract accessor requests(id); a
missing entry comes back as the all-zero tuple, hence id 0 as the absence
sentinel. -/
structure ContractRequest where
  id : Nat
  buyer : String
  description : String
  budget : Nat
  formatsMask : Nat
  status : Nat
  qualityScore : Nat
  qualityReportCid : String
  finalizedSubmissionId : Nat
deriving DecidableEq

/-- Shape of the tuple returned by the contract accessor submissions(id). -/
structure ContractSubmission where
  id : Nat
  requestId : Nat
  seller : String
  model : String
  format : Nat
  fileSize : Nat
  sampleCount : Nat
  fileExtensions : String
  datasetReference : String
  status : Nat
  qualityChecked : Bool
deriving DecidableEq

/-- Mirror record built by BlockchainInteraction.syncRequest.  The source
maps falsy qualityScore (0) and qualityReportCid (empty string) to null,
and finalizedSubmissionId 0 to null; a status index outside the name table
would be undefined, hence the Option. -/
structure RequestData where
  requestId : Nat
  buyerAddress : String
  description : String
  budget : String
  formatsMask : Nat
  acceptedFormats : List String
  status : Option String
  qualityScore : Option Nat
  ipfsReportCid : Option String
  finalizedSubmissionId : Option Nat
deriving DecidableEq

/-- Mirror record built by BlockchainInteraction.syncSubmission. -/
structure SubmissionData where
  submissionId : Nat
  requestId : Nat
  sellerAddress : String
  modelAddress : String
  format : Option String
  fileSize : Nat
  sampleCount : Nat
  fileExtensions : String
  datasetReference : String
  status : Option String
  qualityChecked : Bool
deriving DecidableEq

/-- State of the singleton BlockchainService from config: whether initialize
has run and whether a signing wallet was loaded. -/
structure ServiceState where
  initialized : Bool
  signerPresent : Bool
deriving DecidableEq

/-- A receipt log entry: none stands for a log that parseLog cannot parse
(the source catches the throw and skips it), some for a parsed event with
its name and its numeric id argument. -/
structure ParsedLog where
  name : String
  arg : Nat
deriving DecidableEq

/-- Outcome of submitting a transaction and awaiting tx.wait(): a confirmed
receipt with its hash and logs, or a failure (revert or timeout). -/
inductive TxOutcome where
  | confirmed (txHash : String) (logs : List (Option ParsedLog))
  | failed (msg : String)
deriving DecidableEq

/-- Ledger environment: canonical contract state plus the outcome of the
write entry points used by the orchestrator. -/
structure Chain where
  requests : Nat → ContractRequest
  submissions : Nat → ContractSubmission
  createRequestTx : Nat → String → Nat → TxOutcome
  verifySubmissionTx : Nat → Bool → Nat → String → TxOutcome

/-- Ledger calls observable in a trace: transaction submissions and the
canonical reads performed by the synchronizer. -/
inductive LedgerCall where
  | txCreateRequest (formatsMask : Nat) (description : String) (value : Nat)
  | txVerifySubmission (id : Nat) (approved : Bool) (score : Nat) (cid : String)
  | readRequest (id : Nat)
  | readSubmission (id : Nat)
deriving DecidableEq

namespace BlockchainInteraction

/-- Source: BlockchainInteraction.syncRequest.  Guard on initialization,
canonical read, sentinel check on id 0, then decode into the mirror
record. -/
def syncRequest (st : ServiceState) (ch : Chain) (requestId : Nat) :
    Except String RequestData :=
  if st.initialized then
    let cr := ch.requests requestId
    if cr.id = 0 then
      Except.error ("Request " ++ toString requestId ++ " not found on blockchain")
    else
      Except.ok
        { requestId := cr.id
          buyerAddress := cr.buyer.toLower
          description := cr.description
          budget := toString cr.budget
          formatsMask := cr.formatsMask
          acceptedFormats := decodeFormatsMask cr.formatsMask
          status := REQUEST_STATUS_NAMES.get? cr.status
          qualityScore := if cr.qualityScore = 0 then none else some cr.qualityScore
          ipfsReportCid := if cr.qualityReportCid = "" then none else some cr.qualityReportCid
          finalizedSubmissionId :=
            if cr.finalizedSubmissionId = 0 then none else some cr.finalizedSubmissionId }
  else Except.error "Blockchain service not initialized"

/-- Source: BlockchainInteraction.syncSubmission. -/
def syncSubmission (st : ServiceState) (ch : Chain) (submissionId : Nat) :
    Except String SubmissionData :=
  if st.initialized then
    let cs := ch.submissions submissionId
    if cs.id = 0 then
      Except.error ("Submission " ++ toString submissionId ++ " not found on blockchain")
    else
      Except.ok
        { submissionId := cs.id
          requestId := cs.requestId
          sellerAddress := cs.seller.toLower
          modelAddress := cs.model.toLower
          format := DATA_FORMAT_NAMES.get? cs.format
          fileSize := cs.fileSize
          sampleCount := cs.sampleCount
          fileExtensions := cs.fileExtensions
          datasetReference := cs.datasetReference
          status := SUBMISSION_STATUS_NAMES.get? cs.status
          qualityChecked := cs.qualityChecked }
  else Except.error "Blockchain service not initialized"

/-- Source: BlockchainInteraction.createRequest.  Guard on initialization
and signer, submit the transaction with the mask unchecked, await the
receipt, scan the logs for the RequestCreated event (unparsable logs are
skipped), sync the new request, and return the id and hash.  The second
component records the ledger calls in order. -/
def createRequest (st : ServiceState) (ch : Chain) (formatsMask : Nat)
    (description : String) (budgetInWei : Nat) :
    Except String (Nat × String) × List LedgerCall :=
  if st.initialized then
    if st.signerPresent then
      match ch.createRequestTx formatsMask description budgetInWei with
      | TxOutcome.failed msg =>
        (Except.error msg, [LedgerCall.txCreateRequest formatsMask description budgetInWei])
      | TxOutcome.confirmed txHash logs =>
        match logs.find? (fun l =>
          match l with
          | some p => p.name = "RequestCreated"
          | none => false) with
        | some (some p) =>
          (match syncRequest st ch p.arg with
           | Except.error e => Except.error e
           | Except.ok _ => Except.ok (p.arg, txHash),
           [LedgerCall.txCreateRequest formatsMask description budgetInWei,
            LedgerCall.readRequest p.arg])
        | _ =>
          (Except.error "RequestCreated event not found in transaction receipt",
           [LedgerCall.txCreateRequest formatsMask description budgetInWei])
    else (Except.error "Signer not available. Cannot create request.", [])
  else (Except.error "Blockchain service not initialized", [])

/-- Source: BlockchainInteraction.verifySubmission.  Guard on initialization
and signer, submit and await the verification transaction, then sync the
submission; the source explicitly skips syncing the parent request.  The
second component records the ledger calls in order. -/
def verifySubmission (st : ServiceState) (ch : Chain) (submissionId : Nat)
    (approved : Bool) (qualityScore : Nat) (qualityReportCid : String) :
    Except String String × List LedgerCall :=
  if st.initialized then
    if st.signerPresent then
      match ch.verifySubmissionTx submissionId approved qualityScore qualityReportCid with
      | TxOutcome.failed msg =>
        (Except.error msg,
         [LedgerCall.txVerifySubmission submissionId approved qualityScore qualityReportCid])
      | TxOutcome.confirmed txHash _ =>
        (match syncSubmission st ch submissionId with
         | Except.error e => Except.error e
         | Except.ok _ => Except.ok txHash,
         [LedgerCall.txVerifySubmission submissionId approved qualityScore qualityReportCid,
          LedgerCall.readSubmission submissionId])
    else (Except.error "Signer not available. Cannot verify submission.", [])
  else (Except.error "Blockchain service not initialized", [])

end BlockchainInteraction

/-! ### Event listeners (BlockchainInteraction.setupEventListeners) -/

/-- Raw arguments delivered by the contract for a RequestCreated event. -/
structure RequestCreatedEvent where
  requestId : Nat
  buyer : String
  budget : Nat
  formatsMask : Nat
  description : String
deriving DecidableEq

/-- Argument object the RequestCreated listener passes to the registered
handler: the raw event fields with the id coerced to Number. -/
structure RequestCreatedPayload where
  requestId : Nat
  buyer : String
  budget : Nat
  formatsMask : Nat
  description : String
deriving DecidableEq

/-- Raw arguments delivered for a SubmissionSubmitted event. -/
structure SubmissionSubmittedEvent where
  submissionId : Nat
  requestId : Nat
  seller : String
  model : String
  format : Nat
  fileSize : Nat
  sampleCount : Nat
  fileExtensions : String
  datasetReference : String
deriving DecidableEq

/-- Argument object the SubmissionSubmitted listener passes to the handler:
only the ids, seller and model are forwarded, straight from the raw
event. -/
structure SubmissionSubmittedPayload where
  submissionId : Nat
  requestId : Nat
  seller : String
  model : String
deriving DecidableEq

/-- Raw arguments delivered for a SubmissionVerified event. -/
structure SubmissionVerifiedEvent where
  submissionId : Nat
  requestId : Nat
  approved : Bool
  qualityScore : Nat
  qualityReportCid : String
deriving DecidableEq

/-- Argument object the SubmissionVerified listener passes to the handler. -/
structure SubmissionVerifiedPayload where
  submissionId : Nat
  requestId : Nat
  approved : Bool
  qualityScore : Nat
  qualityReportCid : String
deriving DecidableEq

/-- True exactly on a successful Except result. -/
def isOkE {ε α : Type} (e : Except ε α) : Bool :=
  match e with
  | Except.ok _ => true
  | Except.error _ => false

namespace BlockchainInteraction

/-- Source: the RequestCreated listener body: await syncRequest for the
event id (discarding the mirror record), then hand the handler an object
built from the raw event arguments.  The result is the argument the handler
receives; an error means the sync threw and the handler never ran. -/
def requestCreatedHandlerArg (st : ServiceState) (ch : Chain)
    (ev : RequestCreatedEvent) : Except String RequestCreatedPayload :=
  match syncRequest st ch ev.requestId with
  | Except.error e => Except.error e
  | Except.ok _ =>
    Except.ok
      { requestId := ev.requestId, buyer := ev.buyer, budget := ev.budget,
        formatsMask := ev.formatsMask, description := ev.description }

/-- Source: the SubmissionSubmitted listener body. -/
def submissionSubmittedHandlerArg (st : ServiceState) (ch : Chain)
    (ev : SubmissionSubmittedEvent) : Except String SubmissionSubmittedPayload :=
  match syncSubmission st ch ev.submissionId with
  | Except.error e => Except.error e
  | Except.ok _ =>
    Except.ok
      { submissionId := ev.submissionId, requestId := ev.requestId,
        seller := ev.seller, model := ev.model }

/-- Source: the SubmissionVerified listener body: sync the submission, then
the request, then hand the handler the raw fields. -/
def submissionVerifiedHandlerArg (st : ServiceState) (ch : Chain)
    (ev : SubmissionVerifiedEvent) : Except String SubmissionVerifiedPayload :=
  match syncSubmission st ch ev.submissionId with
  | Except.error e => Except.error e
  | Except.ok _ =>
    match syncRequest st ch ev.requestId with
    | Except.error e => Except.error e
    | Except.ok _ =>
      Except.ok
        { submissionId := ev.submissionId, requestId := ev.requestId,
          approved := ev.approved, qualityScore := ev.qualityScore,
          qualityReportCid := ev.qualityReportCid }

end BlockchainInteraction

/-! ## Concrete environments used by witnesses and counterexamples -/

def stInit : ServiceState := { initialized := true, signerPresent := true }

def stUninit : ServiceState := { initialized := false, signerPresent := true }

def stNoSigner : ServiceState := { initialized := true, signerPresent := false }

def zeroContractRequest : ContractRequest :=
  { id := 0, buyer := "", description := "", budget := 0, formatsMask := 0,
    status := 0, qualityScore := 0, qualityReportCid := "", finalizedSubmissionId := 0 }

def zeroContractSubmission : ContractSubmission :=
  { id := 0, requestId := 0, seller := "", model := "", format := 0,
    fileSize := 0, sampleCount := 0, fileExtensions := "",
    datasetReference := "", status := 0, qualityChecked := false }

/-- Ledger with no entries at all: every read hits the zero sentinel. -/
def chainEmpty : Chain :=
  { requests := fun _ => zeroContractRequest
    submissions := fun _ => zeroContractSubmission
    createRequestTx := fun _ _ _ => TxOutcome.failed "no ledger"
    verifySubmissionTx := fun _ _ _ _ => TxOutcome.failed "no ledger" }

/-- Ledger for the createRequest scenarios: the creation transaction
confirms, emits RequestCreated with id 5, and the canonical read of request
5 succeeds. -/
def chainC1 : Chain :=
  { requests := fun n =>
      if n = 5 then
        { id := 5, buyer := "0xBUYER", description := "d", budget := 1,
          formatsMask := 0, status := 0, qualityScore := 0,
          qualityReportCid := "", finalizedSubmissionId := 0 }
      else zeroContractRequest
    submissions := fun _ => zeroContractSubmission
    createRequestTx := fun _ _ _ =>
      TxOutcome.confirmed "0xabc" [none, some { name := "RequestCreated", arg := 5 }]
    verifySubmissionTx := fun _ _ _ _ => TxOutcome.failed "unused" }

/-- Ledger for the verifySubmission scenarios: the verification transaction
confirms; after it, submission 4 belongs to request 7 and request 7 is
CLOSED with submission 4 recorded as its finalized submission. -/
def chainC2 : Chain :=
  { requests := fun n =>
      if n = 7 then
        { id := 7, buyer := "0xBUYER", description := "r7", budget := 9,
          formatsMask := 2, status := 1, qualityScore := 88,
          qualityReportCid := "cid7", finalizedSubmissionId := 4 }
      else zeroContractRequest
    submissions := fun n =>
      if n = 4 then
        { id := 4, requestId := 7, seller := "0xSELLER", model := "0xMODEL",
          format := 1, fileSize := 10, sampleCount := 3,
          fileExtensions := "csv", datasetReference := "ref", status := 1,
          qualityChecked := true }
      else zeroContractSubmission
    createRequestTx := fun _ _ _ => TxOutcome.failed "unused"
    verifySubmissionTx := fun _ _ _ _ => TxOutcome.confirmed "0xdef" [] }

/-- Ledger for the event-listener scenario: the canonical description of
request 7 differs from the one carried by the event payload. -/
def chainC3 : Chain :=
  { requests := fun n =>
      if n = 7 then
        { id := 7, buyer := "0xBUYER", description := "fresh", budget := 5,
          formatsMask := 3, status := 0, qualityScore := 0,
          qualityReportCid := "", finalizedSubmissionId := 0 }
      else zeroContractRequest
    submissions := fun _ => zeroContractSubmission
    createRequestTx := fun _ _ _ => TxOutcome.failed "unused"
    verifySubmissionTx := fun _ _ _ _ => TxOutcome.failed "unused" }

/-- Event whose payload carries a stale description for request 7. -/
def staleEvent : RequestCreatedEvent :=
  { requestId := 7, buyer := "0xBUYER", budget := 5, formatsMask := 3,
    description := "stale" }

/-! ## Helper lemmas -/

/-- Keys produced by runQualityChecks for a given format: the two base
metrics plus the format-specific ones. -/
def producedKeys (format : String) : List String :=
  "completeness" :: "formatCompliance" :: (formatMetrics format).map Prod.fst

theorem lookup_eq_none_of_not_mem_keys (l : List (String × ℚ)) (k : String)
    (h : k ∉ l.map Prod.fst) : l.lookup k = none := by
  induction l with
  | nil => rfl
  | cons a t ih =>
    simp only [List.map_cons, List.mem_cons, not_or] at h
    obtain ⟨h1, h2⟩ := h
    obtain ⟨a1, a2⟩ := a
    rw [List.lookup_cons, beq_eq_false_iff_ne.mpr h1]
    exact ih h2

theorem lookup_filterMap_eq_none (tpl : List String) (assigned : List (String × ℚ))
    (k : String) (h : assigned.lookup k = none) :
    (tpl.filterMap fun k0 => (assigned.lookup k0).map fun v => (k0, v)).lookup k = none := by
  induction tpl with
  | nil => rfl
  | cons k0 t ih =>
    simp only [List.filterMap_cons]
    cases h0 : assigned.lookup k0 with
    | none => exact ih
    | some v =>
      have hk : k ≠ k0 := by
        intro e
        rw [e, h0] at h
        exact Option.noConfusion h
      simp only [Option.map_some']
      rw [List.lookup_cons, beq_eq_false_iff_ne.mpr hk]
      exact ih

theorem splitCommaAux_ne_nil (l : List Char) : ∀ acc, splitCommaAux l acc ≠ [] := by
  induction l with
  | nil =>
    intro acc h
    exact List.noConfusion h
  | cons c cs ih =>
    intro acc
    simp only [splitCommaAux]
    split
    · exact List.cons_ne_nil _ _
    · exact ih _

theorem parse_decode_roundtrip_aux :
    ∀ m : Nat, m < 64 → 1 ≤ m → parseFormatsMask (decodeFormatsMask m) = some m := by
  with_unfolding_all decide

/-! ## Claims -/

/-- Claim C4, counterexample to the claim as stated: decodeFormatsMask 0
returns the empty list, i.e. mask 0 is decoded to the empty format set and
is not rejected as invalid input. -/
theorem c4_counterexample :
    decodeFormatsMask 0 = [] ∧ parseFormatsMask (decodeFormatsMask 0) = none :=
  ⟨rfl, rfl⟩

/-- Claim C4 (amended): for every mask in 1..63 the decoded format-name
list re-encodes to the same mask; decodeFormatsMask 0 yields the empty
list rather than being rejected, and re-encoding that empty list yields
null (none). -/
theorem c4_roundtrip (mask : Nat) (h1 : 1 ≤ mask) (h2 : mask ≤ 63) :
    parseFormatsMask (decodeFormatsMask mask) = some mask
    ∧ decodeFormatsMask 0 = [] ∧ parseFormatsMask [] = none :=
  ⟨parse_decode_roundtrip_aux mask (by omega) h1, rfl, rfl⟩

/-- Claim C4, witness: the roundtrip theorem applied at mask 21. -/
theorem c4_roundtrip_witness :
    parseFormatsMask (decodeFormatsMask 21) = some 21
    ∧ decodeFormatsMask 0 = [] ∧ parseFormatsMask [] = none :=
  c4_roundtrip 21 (by decide) (by decide)

/-- CSV submission whose metrics average exactly to 70: completeness 70
(zero file size and blank reference) and formatCompliance 20 (one of five
declared extensions matches), together with the fixed CSV metrics. -/
def sub70 : Submission :=
  { submissionId := 1, requestId := 1, format := "CSV", fileSize := 0,
    sampleCount := 5, fileExtensions := "csv,a,b,c,d", datasetReference := "" }

/-- CSV submission whose metrics average rounds to 69: completeness 60 and
formatCompliance 25. -/
def sub69 : Submission :=
  { submissionId := 2, requestId := 1, format := "CSV", fileSize := 0,
    sampleCount := 0, fileExtensions := "csv,a,b,c", datasetReference := "ref" }

/-- CSV submission with an empty declared-extensions string. -/
def subEmptyExt : Submission :=
  { submissionId := 3, requestId := 1, format := "CSV", fileSize := 1,
    sampleCount := 1, fileExtensions := "", datasetReference := "r" }

/-- Complete CSV submission whose file size is 2 GiB. -/
def subBigFile : Submission :=
  { submissionId := 4, requestId := 1, format := "CSV",
    fileSize := 2 * 1024 * 1024 * 1024, sampleCount := 1000,
    fileExtensions := "csv", datasetReference := "ref1" }

/-- Claim C6: metrics not produced for the format are omitted from the map
(their keys are absent, not zeroed); calculateOverallScore is the rounded
unweighted mean of the present metric values, 0 on an empty map, and 75 on
the map with completeness 100 and formatCompliance 50. -/
theorem c6_overall_score_mean (s : Submission) (k : String) (m : List (String × ℚ))
    (hk : k ∉ producedKeys s.format) (hm : m ≠ []) :
    (runQualityChecks s).lookup k = none
    ∧ calculateOverallScore m = jsRound ((m.map Prod.snd).sum / (m.length : ℚ))
    ∧ calculateOverallScore [] = 0
    ∧ calculateOverallScore [("completeness", 100), ("formatCompliance", 50)] = 75 := by
  refine ⟨?_, ?_, rfl, by with_unfolding_all rfl⟩
  · apply lookup_filterMap_eq_none
    apply lookup_eq_none_of_not_mem_keys
    simp only [List.map_reverse, List.mem_reverse]
    simpa [producedKeys] using hk
  · rw [calculateOverallScore]
    simp only [List.length_map]
    rw [if_neg]
    simpa using hm

/-- Claim C6, witness: applied to a CSV submission with the never-produced
key uniqueness and a one-entry metrics map. -/
theorem c6_overall_score_mean_witness :
    (runQualityChecks sub70).lookup "uniqueness" = none
    ∧ calculateOverallScore [("completeness", 80)]
        = jsRound ((([("completeness", (80 : ℚ))]).map Prod.snd).sum
            / (([("completeness", (80 : ℚ))]).length : ℚ))
    ∧ calculateOverallScore [] = 0
    ∧ calculateOverallScore [("completeness", 100), ("formatCompliance", 50)] = 75 :=
  c6_overall_score_mean sub70 "uniqueness" [("completeness", 80)]
    (by with_unfolding_all decide) (by decide)

/-- Relates the approval flag of the quality verification to the threshold
comparison of the source. -/
theorem approved_iff (s : Submission) (topt : Option ℚ) :
    (verifySubmissionQuality s topt).approved = true
      ↔ ((verifySubmissionQuality s topt).overallScore : ℚ) ≥ jsOrDefault topt 70 := by
  simp [verifySubmissionQuality, decide_eq_true_iff]

/-- Claim C7: with the default configuration (no threshold option) a
submission is approved iff its overall score is at least 70; a score of
exactly 70 is approved and a score of 69 is not. -/
theorem c7_approval_threshold (s1 s2 s3 : Submission)
    (h2 : (verifySubmissionQuality s2 none).overallScore = 70)
    (h3 : (verifySubmissionQuality s3 none).overallScore = 69) :
    ((verifySubmissionQuality s1 none).approved = true
      ↔ (verifySubmissionQuality s1 none).overallScore ≥ 70)
    ∧ (verifySubmissionQuality s2 none).approved = true
    ∧ (verifySubmissionQuality s3 none).approved = false := by
  refine ⟨(approved_iff s1 none).trans ?_, ?_, ?_⟩
  · rw [jsOrDefault]
    exact_mod_cast Iff.rfl
  · rw [approved_iff, h2, jsOrDefault]
    norm_num
  · rw [Bool.eq_false_iff]
    intro hap
    have := (approved_iff s3 none).mp hap
    rw [h3, jsOrDefault] at this
    norm_num at this

/-- Claim C7, witness: the threshold theorem applied to submissions whose
overall scores compute to exactly 70 and 69. -/
theorem c7_approval_threshold_witness :
    ((verifySubmissionQuality sub70 none).approved = true
      ↔ (verifySubmissionQuality sub70 none).overallScore ≥ 70)
    ∧ (verifySubmissionQuality sub70 none).approved = true
    ∧ (verifySubmissionQuality sub69 none).approved = false :=
  c7_approval_threshold sub70 sub70 sub69
    (by with_unfolding_all rfl) (by with_unfolding_all rfl)

/-- Claim C8: a metric score in 0..59 emits a high issue for that metric, a
score in 60..74 a medium issue, a score of 75 or more none; and a file size
above 1 GiB always appends the medium fileSize issue, independent of the
metric scores. -/
theorem c8_issue_severities (k : String) (v : ℚ) (metrics : List (String × ℚ))
    (s : Submission) (_hv : 0 ≤ v) (hs : 1024 * 1024 * 1024 < s.fileSize) :
    ((metricIssues k v).map (fun i => (i.severity, i.category))
      = if v < 60 then [("high", k)] else if v < 75 then [("medium", k)] else [])
    ∧ identifyIssues metrics s
      = (metrics.flatMap fun kv => metricIssues kv.1 kv.2) ++ [fileSizeIssue]
    ∧ fileSizeIssue.severity = "medium" := by
  refine ⟨?_, ?_, rfl⟩
  · rw [metricIssues]
    split
    · simp
    · split <;> simp
  · rw [identifyIssues, if_pos hs]

/-- Claim C8, witness: a score of 55 on accuracy yields a high issue, and a
2 GiB submission gets the medium fileSize issue appended. -/
theorem c8_issue_severities_witness :
    ((metricIssues "accuracy" 55).map (fun i => (i.severity, i.category))
      = if (55 : ℚ) < 60 then [("high", "accuracy")]
        else if (55 : ℚ) < 75 then [("medium", "accuracy")] else [])
    ∧ identifyIssues [("completeness", 100)] subBigFile
      = (([("completeness", (100 : ℚ))]).flatMap fun kv => metricIssues kv.1 kv.2)
          ++ [fileSizeIssue]
    ∧ fileSizeIssue.severity = "medium" :=
  c8_issue_severities "accuracy" 55 [("completeness", 100)] subBigFile
    (by decide) (by decide)

/-- Claim C10: for the five formats with a defined expected-extension set,
an empty declared-extensions string scores formatCompliance 0 (the empty
string splits into one empty token matching nothing, so the denominator is
1), and the split of any string is nonempty, so the division never has a
zero denominator. -/
theorem c10_empty_extensions (s : Submission) (str : String)
    (hf : s.format ∈ ["AUDIO", "CSV", "IMAGE", "TEXT", "VIDEO"])
    (he : s.fileExtensions = "") :
    checkFormatCompliance s = 0
    ∧ ((jsSplitComma str).map String.trim).length ≠ 0
    ∧ (jsSplitComma "").map String.trim = [""] := by
  refine ⟨?_, ?_, by with_unfolding_all rfl⟩
  · simp only [List.mem_cons, List.not_mem_nil, or_false] at hf
    rcases hf with h | h | h | h | h <;>
      (simp only [checkFormatCompliance]; rw [he, h]; with_unfolding_all rfl)
  · rw [List.length_map]
    intro hlen
    exact splitCommaAux_ne_nil _ _ (List.length_eq_zero.mp hlen)

/-- Claim C10, witness: the empty-extensions theorem applied to a CSV
submission and the string a,b. -/
theorem c10_empty_extensions_witness :
    checkFormatCompliance subEmptyExt = 0
    ∧ ((jsSplitComma "a,b").map String.trim).length ≠ 0
    ∧ (jsSplitComma "").map String.trim = [""] :=
  c10_empty_extensions subEmptyExt "a,b" (by decide) rfl

/-- Claim C9: verification creation is governed by the store-level unique
index on submissionId; after a successful create, a second create for the
same submissionId fails with a duplicate-key error (the existing record is
not overwritten, since a failed create writes nothing), the per-submission
uniqueness invariant is preserved, and the unique index on submissionId is
the one declared by the schema. -/
theorem c9_verification_unique (store store1 : List VerificationRecord)
    (r1 r2 : VerificationRecord)
    (hn : (store.map fun x => x.submissionId).Nodup)
    (hc : createVerification store r1 = Except.ok store1)
    (hs : r2.submissionId = r1.submissionId) :
    createVerification store1 r2 = Except.error "E11000 duplicate key error: submissionId"
    ∧ (store1.map fun x => x.submissionId).Nodup
    ∧ ("submissionId", true) ∈ qualityVerificationIndexes := by
  rw [createVerification] at hc
  by_cases hany : (store.any fun x => x.submissionId = r1.submissionId) = true
  · rw [if_pos hany] at hc
    exact Except.noConfusion hc
  · rw [if_neg hany] at hc
    have hstore1 : store1 = store ++ [r1] := (Except.ok.injEq _ _).mp hc.symm
    subst hstore1
    have hnotmem : r1.submissionId ∉ store.map fun x => x.submissionId := by
      intro hmem
      apply hany
      rw [List.any_eq_true]
      obtain ⟨x, hx, hxe⟩ := List.mem_map.mp hmem
      exact ⟨x, hx, by simp [hxe]⟩
    refine ⟨?_, ?_, by decide⟩
    · rw [createVerification, if_pos]
      rw [List.any_eq_true]
      exact ⟨r1, by simp, by simp [hs]⟩
    · rw [List.map_append]
      rw [List.nodup_append]
      exact ⟨hn, List.nodup_singleton _, by
        intro a ha hb
        simp only [List.map_cons, List.map_nil, List.mem_singleton] at hb
        rw [hb] at ha
        exact hnotmem ha⟩

/-- Claim C9, witness: creating into the empty store succeeds, and a second
record with the same submissionId is rejected with the duplicate-key
error. -/
theorem c9_verification_unique_witness :
    createVerification
        [({ submissionId := 1, requestId := 1, approved := true, overallScore := 80 } :
          VerificationRecord)]
        { submissionId := 1, requestId := 2, approved := false, overallScore := 10 }
      = Except.error "E11000 duplicate key error: submissionId"
    ∧ (([({ submissionId := 1, requestId := 1, approved := true, overallScore := 80 } :
          VerificationRecord)]).map fun x => x.submissionId).Nodup
    ∧ ("submissionId", true) ∈ qualityVerificationIndexes :=
  c9_verification_unique []
    [{ submissionId := 1, requestId := 1, approved := true, overallScore := 80 }]
    { submissionId := 1, requestId := 1, approved := true, overallScore := 80 }
    { submissionId := 1, requestId := 2, approved := false, overallScore := 10 }
    (by decide) rfl rfl

/-- Claim C5: when the canonical ledger read returns the sentinel id 0, both
syncRequest and syncSubmission return the not-found error and never a
default mirror record. -/
theorem c5_sentinel_not_found (st : ServiceState) (ch : Chain) (idr ids : Nat)
    (hi : st.initialized = true)
    (hr : (ch.requests idr).id = 0)
    (hs : (ch.submissions ids).id = 0) :
    BlockchainInteraction.syncRequest st ch idr
      = Except.error ("Request " ++ toString idr ++ " not found on blockchain")
    ∧ BlockchainInteraction.syncSubmission st ch ids
      = Except.error ("Submission " ++ toString ids ++ " not found on blockchain") := by
  constructor
  · rw [BlockchainInteraction.syncRequest, hi]
    simp [hr]
  · rw [BlockchainInteraction.syncSubmission, hi]
    simp [hs]

/-- Claim C5, witness: applied to an empty ledger at id 9. -/
theorem c5_sentinel_not_found_witness :
    BlockchainInteraction.syncRequest stInit chainEmpty 9
      = Except.error ("Request " ++ toString 9 ++ " not found on blockchain")
    ∧ BlockchainInteraction.syncSubmission stInit chainEmpty 9
      = Except.error ("Submission " ++ toString 9 ++ " not found on blockchain") :=
  c5_sentinel_not_found stInit chainEmpty 9 9 rfl rfl rfl

/-- Claim C1, counterexample to the claim as stated: a createRequest call
with formatsMask 0 on an initialized, signed service does not fail before a
ledger call; the transaction is submitted (the trace is nonempty) and the
call even succeeds. -/
theorem c1_counterexample :
    (BlockchainInteraction.createRequest stInit chainC1 0 "d" 1).1
      = Except.ok (5, "0xabc")
    ∧ (BlockchainInteraction.createRequest stInit chainC1 0 "d" 1).2 ≠ [] :=
  ⟨rfl, by decide⟩

/-- Claim C1 (amended): createRequest performs no formats-mask validation;
when the service is initialized and a signer is present, a call with
formatsMask 0 submits the creation transaction to the ledger as its first
ledger call instead of failing with an invalid-formats-mask error. -/
theorem c1_no_mask_guard (st : ServiceState) (ch : Chain)
    (description : String) (budget : Nat)
    (hi : st.initialized = true) (hg : st.signerPresent = true) :
    (BlockchainInteraction.createRequest st ch 0 description budget).2.head?
      = some (LedgerCall.txCreateRequest 0 description budget) := by
  rw [BlockchainInteraction.createRequest, hi, hg]
  simp only [if_true]
  cases ch.createRequestTx 0 description budget with
  | failed msg => rfl
  | confirmed txHash logs =>
    split <;> try rfl
    split <;> rfl

/-- Claim C1, witness: the amended theorem applied to the confirmed-creation
ledger. -/
theorem c1_no_mask_guard_witness :
    (BlockchainInteraction.createRequest stInit chainC1 0 "d" 1).2.head?
      = some (LedgerCall.txCreateRequest 0 "d" 1) :=
  c1_no_mask_guard stInit chainC1 "d" 1 rfl rfl

/-- Claim C2, counterexample to the claim as stated: a successful confirmed
verifySubmission for submission 4 on a ledger where the same transaction
finalized parent request 7 (its finalizedSubmissionId is 4) performs the
submission sync but no request sync: no readRequest call appears in the
trace. -/
theorem c2_counterexample :
    (BlockchainInteraction.verifySubmission stInit chainC2 4 true 88 "cid").1
      = Except.ok "0xdef"
    ∧ (chainC2.requests 7).finalizedSubmissionId = 4
    ∧ (chainC2.submissions 4).requestId = 7
    ∧ LedgerCall.readSubmission 4
        ∈ (BlockchainInteraction.verifySubmission stInit chainC2 4 true 88 "cid").2
    ∧ LedgerCall.readRequest 7
        ∉ (BlockchainInteraction.verifySubmission stInit chainC2 4 true 88 "cid").2 :=
  ⟨rfl, rfl, rfl, by decide, by decide⟩

/-- Claim C2 (amended): after a confirmed verification transaction the
orchestrator unconditionally invokes syncSubmission for the submission id,
and never invokes syncRequest for any request, even when the same
transaction finalizes the parent request. -/
theorem c2_sync_after_verify (st : ServiceState) (ch : Chain) (id : Nat)
    (approved : Bool) (score : Nat) (cid : String) (txHash : String)
    (logs : List (Option ParsedLog)) (r : Nat)
    (hi : st.initialized = true) (hg : st.signerPresent = true)
    (htx : ch.verifySubmissionTx id approved score cid = TxOutcome.confirmed txHash logs) :
    (BlockchainInteraction.verifySubmission st ch id approved score cid).2
      = [LedgerCall.txVerifySubmission id approved score cid, LedgerCall.readSubmission id]
    ∧ LedgerCall.readRequest r
        ∉ (BlockchainInteraction.verifySubmission st ch id approved score cid).2 := by
  have htrace :
      (BlockchainInteraction.verifySubmission st ch id approved score cid).2
        = [LedgerCall.txVerifySubmission id approved score cid,
           LedgerCall.readSubmission id] := by
    rw [BlockchainInteraction.verifySubmission, hi, hg]
    simp only [if_true]
    rw [htx]
  refine ⟨htrace, ?_⟩
  rw [htrace]
  simp

/-- Claim C2, witness: the amended theorem applied to the finalizing
verification ledger. -/
theorem c2_sync_after_verify_witness :
    (BlockchainInteraction.verifySubmission stInit chainC2 4 true 88 "cid").2
      = [LedgerCall.txVerifySubmission 4 true 88 "cid", LedgerCall.readSubmission 4]
    ∧ LedgerCall.readRequest 7
        ∉ (BlockchainInteraction.verifySubmission stInit chainC2 4 true 88 "cid").2 :=
  c2_sync_after_verify stInit chainC2 4 true 88 "cid" "0xdef" [] 7 rfl rfl rfl

/-- Claim C3, counterexample to the claim as stated: for a RequestCreated
event whose payload description is stale while the canonical ledger record
says fresh, the registered handler receives the stale raw payload, not the
post-sync mirror state. -/
theorem c3_counterexample :
    (BlockchainInteraction.requestCreatedHandlerArg stInit chainC3 staleEvent).toOption.map
        (fun p => p.description) = some "stale"
    ∧ (BlockchainInteraction.syncRequest stInit chainC3 7).toOption.map
        (fun m => m.description) = some "fresh"
    ∧ ("stale" : String) ≠ "fresh" :=
  ⟨rfl, rfl, by decide⟩

/-- Events used by the C3 witness against the chainC2 ledger. -/
def evReqCreated : RequestCreatedEvent :=
  { requestId := 7, buyer := "0xB", budget := 9, formatsMask := 2, description := "r7" }

def evSubSubmitted : SubmissionSubmittedEvent :=
  { submissionId := 4, requestId := 7, seller := "0xS", model := "0xM", format := 1,
    fileSize := 10, sampleCount := 3, fileExtensions := "csv", datasetReference := "ref" }

def evSubVerified : SubmissionVerifiedEvent :=
  { submissionId := 4, requestId := 7, approved := true, qualityScore := 88,
    qualityReportCid := "cid7" }

/-- Claim C3 (amended): for each of the three events, the synchronizer runs
for the referenced id(s) and must succeed before the registered handler is
invoked, but the handler receives an object built from the raw event
arguments, not the post-sync mirror state. -/
theorem c3_handlers_get_raw_payload (st : ServiceState) (ch : Chain)
    (ev1 : RequestCreatedEvent) (p1 : RequestCreatedPayload)
    (ev2 : SubmissionSubmittedEvent) (p2 : SubmissionSubmittedPayload)
    (ev3 : SubmissionVerifiedEvent) (p3 : SubmissionVerifiedPayload)
    (h1 : BlockchainInteraction.requestCreatedHandlerArg st ch ev1 = Except.ok p1)
    (h2 : BlockchainInteraction.submissionSubmittedHandlerArg st ch ev2 = Except.ok p2)
    (h3 : BlockchainInteraction.submissionVerifiedHandlerArg st ch ev3 = Except.ok p3) :
    (p1 = { requestId := ev1.requestId, buyer := ev1.buyer, budget := ev1.budget,
            formatsMask := ev1.formatsMask, description := ev1.description }
      ∧ isOkE (BlockchainInteraction.syncRequest st ch ev1.requestId) = true)
    ∧ (p2 = { submissionId := ev2.submissionId, requestId := ev2.requestId,
              seller := ev2.seller, model := ev2.model }
      ∧ isOkE (BlockchainInteraction.syncSubmission st ch ev2.submissionId) = true)
    ∧ (p3 = { submissionId := ev3.submissionId, requestId := ev3.requestId,
              approved := ev3.approved, qualityScore := ev3.qualityScore,
              qualityReportCid := ev3.qualityReportCid }
      ∧ isOkE (BlockchainInteraction.syncSubmission st ch ev3.submissionId) = true
      ∧ isOkE (BlockchainInteraction.syncRequest st ch ev3.requestId) = true) := by
  refine ⟨?_, ?_, ?_⟩
  · rw [BlockchainInteraction.requestCreatedHandlerArg] at h1
    cases hsync : BlockchainInteraction.syncRequest st ch ev1.requestId with
    | error e =>
      rw [hsync] at h1
      exact Except.noConfusion h1
    | ok m =>
      rw [hsync] at h1
      exact ⟨((Except.ok.injEq _ _).mp h1).symm, by rw [isOkE]⟩
  · rw [BlockchainInteraction.submissionSubmittedHandlerArg] at h2
    cases hsync : BlockchainInteraction.syncSubmission st ch ev2.submissionId with
    | error e =>
      rw [hsync] at h2
      exact Except.noConfusion h2
    | ok m =>
      rw [hsync] at h2
      exact ⟨((Except.ok.injEq _ _).mp h2).symm, by rw [isOkE]⟩
  · rw [BlockchainInteraction.submissionVerifiedHandlerArg] at h3
    cases hsyncs : BlockchainInteraction.syncSubmission st ch ev3.submissionId with
    | error e =>
      rw [hsyncs] at h3
      exact Except.noConfusion h3
    | ok m =>
      rw [hsyncs] at h3
      cases hsyncr : BlockchainInteraction.syncRequest st ch ev3.requestId with
      | error e =>
        rw [hsyncr] at h3
        exact Except.noConfusion h3
      | ok d =>
        rw [hsyncr] at h3
        exact ⟨((Except.ok.injEq _ _).mp h3).symm, by rw [isOkE], by rw [isOkE]⟩

/-- Claim C3, witness: the amended theorem applied to the three events on
the populated ledger. -/
theorem c3_handlers_get_raw_payload_witness :
    (({ requestId := 7, buyer := "0xB", budget := 9, formatsMask := 2,
        description := "r7" } : RequestCreatedPayload)
        = { requestId := evReqCreated.requestId, buyer := evReqCreated.buyer,
            budget := evReqCreated.budget, formatsMask := evReqCreated.formatsMask,
            description := evReqCreated.description }
      ∧ isOkE (BlockchainInteraction.syncRequest stInit chainC2 evReqCreated.requestId) = true)
    ∧ (({ submissionId := 4, requestId := 7, seller := "0xS", model := "0xM" } :
          SubmissionSubmittedPayload)
        = { submissionId := evSubSubmitted.submissionId,
            requestId := evSubSubmitted.requestId, seller := evSubSubmitted.seller,
            model := evSubSubmitted.model }
      ∧ isOkE (BlockchainInteraction.syncSubmission stInit chainC2
          evSubSubmitted.submissionId) = true)
    ∧ (({ submissionId := 4, requestId := 7, approved := true, qualityScore := 88,
          qualityReportCid := "cid7" } : SubmissionVerifiedPayload)
        = { submissionId := evSubVerified.submissionId,
            requestId := evSubVerified.requestId, approved := evSubVerified.approved,
            qualityScore := evSubVerified.qualityScore,
            qualityReportCid := evSubVerified.qualityReportCid }
      ∧ isOkE (BlockchainInteraction.syncSubmission stInit chainC2
          evSubVerified.submissionId) = true
      ∧ isOkE (BlockchainInteraction.syncRequest stInit chainC2
          evSubVerified.requestId) = true) :=
  c3_handlers_get_raw_payload stInit chainC2 evReqCreated
    { requestId := 7, buyer := "0xB", budget := 9, formatsMask := 2, description := "r7" }
    evSubSubmitted
    { submissionId := 4, requestId := 7, seller := "0xS", model := "0xM" }
    evSubVerified
    { submissionId := 4, requestId := 7, approved := true, qualityScore := 88,
      qualityReportCid := "cid7" }
    rfl rfl rfl

end SDG
